import Mathlib

/-!
Formalisation of the core logic of the story-generator service
(storygenerator.py): the prompt builder, the content validator, the
line-oriented story parser, the bounded retry loop of GeminiStoryGenerator.generate_story,
and the image prompt assembly of GeminiStoryGenerator.generate_scene_image.

Python strings are modelled as Lean String; the Python string operations
the code relies on (str.split with no argument, str.split with a separator,
str.strip, str.startswith, str.replace, the substring test with the in
operator) are embedded below over the character list of the string, with
ASCII whitespace (space, tab, newline, carriage return, vertical tab,
form feed) standing for Python whitespace.

The two external collaborators (the Gemini text model and the Monster
image API) are parameters of the embedded functions: the text generator
is a function from the attempt index to an outcome (raised exception or
returned text), the image provider a function from model name and input
payload to a result holding a list of output URLs.
-/

namespace StoryGen

/-- ASCII whitespace, as recognised by Python str.strip and str.split. -/
def isPySpace (c : Char) : Bool :=
  c = ' ' || c = '\t' || c = '\n' || c = '\r' || c = '\u000b' || c = '\u000c'

/-- Python str.strip with no argument: drop leading and trailing whitespace. -/
def pyStrip (s : String) : String :=
  String.mk (((s.data.dropWhile isPySpace).reverse.dropWhile isPySpace).reverse)

/-- Accumulator pass for Python str.split with no argument: split on runs of
whitespace, discarding empty pieces.  The accumulator holds the current word
reversed. -/
def pySplitWsAux : List Char → List Char → List String
  | acc, [] => if acc.isEmpty then [] else [String.mk acc.reverse]
  | acc, c :: rest =>
    if isPySpace c then
      if acc.isEmpty then pySplitWsAux [] rest
      else String.mk acc.reverse :: pySplitWsAux [] rest
    else pySplitWsAux (c :: acc) rest

/-- Python str.split() with no argument. -/
def pySplitWs (s : String) : List String :=
  pySplitWsAux [] s.data

/-- All suffixes of a character list, longest first (the list itself included,
down to the empty suffix). -/
def charSuffixes : List Char → List (List Char)
  | [] => [[]]
  | c :: rest => (c :: rest) :: charSuffixes rest

/-- Python substring containment, pat in s. -/
def pyContains (pat s : String) : Bool :=
  (charSuffixes s.data).any (fun t => pat.data.isPrefixOf t)

/-- Python str.startswith. -/
def pyStartsWith (pat s : String) : Bool :=
  pat.data.isPrefixOf s.data

/-- Replacement pass of Python str.replace for a non-empty pattern: replace
every non-overlapping occurrence of pat, scanning left to right.  The fuel
argument makes the recursion structural; with fuel at least the length of
the scanned list the zero-fuel fallback is never reached, since every step
consumes at least one character. -/
def pyReplaceAux (pat rep : List Char) : Nat → List Char → List Char
  | _, [] => []
  | 0, s => s
  | fuel + 1, c :: rest =>
    if pat ≠ [] ∧ pat.isPrefixOf (c :: rest) then
      rep ++ pyReplaceAux pat rep fuel (rest.drop (pat.length - 1))
    else
      c :: pyReplaceAux pat rep fuel rest

/-- Python str.replace (for the non-empty patterns the source uses). -/
def pyReplace (pat rep s : String) : String :=
  String.mk (pyReplaceAux pat.data rep.data s.data.length s.data)

/-- Python str.split(sep) for a single-character separator: split on every
occurrence, keeping empty pieces.  The accumulator holds the current piece
reversed. -/
def pySplitCharAux (sep : Char) : List Char → List Char → List String
  | acc, [] => [String.mk acc.reverse]
  | acc, c :: rest =>
    if c = sep then String.mk acc.reverse :: pySplitCharAux sep [] rest
    else pySplitCharAux sep (c :: acc) rest

/-- Python story.split of the parser: split on newline characters. -/
def pySplitNl (s : String) : List String :=
  pySplitCharAux '\n' [] s.data

/-- Python sep.join(xs) for a list of strings. -/
def pyJoin (sep : String) : List String → String
  | [] => ""
  | [x] => x
  | x :: xs => x ++ sep ++ pyJoin sep xs

/-- A text made of the given words separated by single spaces, at the
character level (used to build concrete texts with a known word count). -/
def wordsText : List (List Char) → List Char
  | [] => []
  | [w] => w
  | w :: ws => w ++ ' ' :: wordsText ws

/-- A concrete raw text of exactly 500 whitespace-separated words whose last
word is the scene marker substring. -/
def fiveHundredWordStory : String :=
  String.mk (wordsText (List.replicate 499 "w".data ++ ["[Scene".data]))

/-- A concrete raw text of exactly 501 whitespace-separated words whose last
word is the scene marker substring. -/
def fiveHundredOneWordStory : String :=
  String.mk (wordsText (List.replicate 500 "w".data ++ ["[Scene".data]))

/-- GeminiStoryGenerator._create_story_prompt: the fixed story prompt template,
parameterised by the moral value and the comma-joined character names. -/
def create_story_prompt (moral_value : String) (character_names : List String) : String :=
  "You are a children's story writer. Create a short story for children aged 0-5 years that teaches the moral value of "
    ++ moral_value
    ++ ".\n\nRequirements:\n\n- Story should be 150-200 words\n- Use simple, clear language suitable for young children\n- Include character names: "
    ++ pyJoin ", " character_names
    ++ "\n- Create 2-3 scenes that can be clearly visualized\n- Include some dialogue but keep it simple\n- Add repetitive elements that young children enjoy\n- End with a clear but gentle moral lesson\n- Avoid any scary or negative elements\n- Use descriptive language that can guide illustration\n\nFormat the story as follows:\nTitle: [Story Title]\n\n[Story text with clear paragraph breaks between scenes]\n\nEach scene should be marked with [Scene X] at the start."

/-- GeminiStoryGenerator._validate_content: reject stories with more than 500
whitespace-separated words or without the literal substring "[Scene". -/
def validate_content (story : String) : Bool :=
  if (pySplitWs story).length > 500 then false
  else if !(pyContains "[Scene" story) then false
  else true

/-- A line opens a scene when its stripped form starts with "[Scene". -/
def isSceneMarker (line : String) : Bool :=
  pyStartsWith "[Scene" (pyStrip line)

/-- Python dict assignment d[k] = v on an insertion-ordered association list:
update the existing entry in place, or append a new one. -/
def dictInsert (k v : String) (d : List (String × String)) : List (String × String) :=
  if d.any (fun p => p.1 = k) then
    d.map (fun p => if p.1 = k then (k, v) else p)
  else
    d ++ [(k, v)]

/-- The loop state of the scene-parsing loop in generate_story: the scenes
mapping built so far, the currently open scene marker (None before the first
marker; the Python code tests the string for truthiness, but a stored marker
always starts with "[Scene" and is never empty, so Option faithfully models
the test), and the list of body lines accumulated for the open scene. -/
structure ParseState where
  scenes : List (String × String)
  currentScene : Option String
  currentText : List String
deriving DecidableEq

/-- Flush the currently open scene (if any) into the mapping, keyed by the
stripped marker, with the accumulated lines joined by newline and stripped. -/
def flushScene (st : ParseState) : List (String × String) :=
  match st.currentScene with
  | some k => dictInsert k (pyStrip (pyJoin "\n" st.currentText)) st.scenes
  | none => st.scenes

/-- One iteration of the scene-parsing loop of generate_story over a body
line: a marker line flushes the open scene and opens a new one; a non-blank
line is appended (unstripped) to the open scene's buffer; other lines are
dropped. -/
def processLine (st : ParseState) (line : String) : ParseState :=
  if isSceneMarker line then
    { scenes := flushScene st
      currentScene := some (pyStrip line)
      currentText := [] }
  else if pyStrip line ≠ "" ∧ st.currentScene.isSome then
    { st with currentText := st.currentText ++ [line] }
  else st

/-- The flush after the loop of generate_story: it only fires when a scene is
open and its buffer is non-empty (Python tests current_scene and current_text
for truthiness). -/
def finalizeScenes (st : ParseState) : List (String × String) :=
  match st.currentScene with
  | some k =>
    if st.currentText ≠ [] then dictInsert k (pyStrip (pyJoin "\n" st.currentText)) st.scenes
    else st.scenes
  | none => st.scenes

/-- The scene-parsing loop of generate_story over the lines after the title
line, followed by the final flush. -/
def parseScenes (body : List String) : List (String × String) :=
  finalizeScenes (body.foldl processLine { scenes := [], currentScene := none, currentText := [] })

/-- The structured story returned by generate_story: the dict with keys
title, scenes and full_text. -/
structure Story where
  title : String
  scenes : List (String × String)
  full_text : String
deriving DecidableEq

/-- The parsing block of generate_story, applied to a validated raw text:
split into lines, take the title from the first line by deleting every
occurrence of "Title:" and stripping, and run the scene loop on the rest. -/
def parse_story (story : String) : Story :=
  let lines := pySplitNl story
  { title := pyStrip (pyReplace "Title:" "" (lines.headD ""))
    scenes := parseScenes lines.tail
    full_text := story }

/-- Outcome of one call to the external text-generation collaborator:
either an exception escapes the call, or a raw text is returned. -/
inductive GenOutcome where
  | raises
  | text (s : String)
deriving DecidableEq

/-- An attempt is discarded when the collaborator raises or the returned
text fails validation. -/
def attemptFails (o : GenOutcome) : Bool :=
  match o with
  | .raises => true
  | .text s => !(validate_content s)

/-- The retry loop of generate_story from attempt index start with the given
number of remaining attempts.  Returns the result together with the number of
attempts actually made (calls issued to the collaborator). -/
def generate_storyFrom (gen : Nat → GenOutcome) (start : Nat) :
    Nat → Except String Story × Nat
  | 0 => (Except.error "Failed to generate a valid story", 0)
  | remaining + 1 =>
    match gen start with
    | .raises =>
      let r := generate_storyFrom gen (start + 1) remaining
      (r.1, r.2 + 1)
    | .text story =>
      if validate_content story then (Except.ok (parse_story story), 1)
      else
        let r := generate_storyFrom gen (start + 1) remaining
        (r.1, r.2 + 1)

/-- GeminiStoryGenerator.generate_story: build the prompt, then run up to
max_attempts attempts against the text-generation collaborator (a function
of the prompt and the attempt index), raising the terminal
"Failed to generate a valid story" exception on exhaustion.  The second
component counts the attempts made. -/
def generate_story (gen : String → Nat → GenOutcome) (moral_value : String)
    (character_names : List String) (max_attempts : Nat := 3) :
    Except String Story × Nat :=
  generate_storyFrom (gen (create_story_prompt moral_value character_names)) 0 max_attempts

/-- Failures of the image path.  keyError and indexError model the Python
exceptions the source can raise (a dict lookup on a missing key, and
indexing an empty result list).  missingCharacterDescription and
emptyGenerationResult are modelled from the spec: the checked errors
MissingCharacterDescription and EmptyGenerationResult that sections 4.4
and 7 of the spec name; the source never produces them. -/
inductive ImgError where
  | keyError (key : String)
  | indexError
  | missingCharacterDescription (name : String)
  | emptyGenerationResult
deriving DecidableEq

/-- The input_data dict handed to the Monster API client in
generate_scene_image.  The Python float 7.5 is modelled exactly as the
rational 15/2. -/
structure ImageInput where
  prompt : String
  negprompt : String
  samples : Nat
  steps : Nat
  aspect_ratio : String
  guidance_scale : ℚ
  seed : Nat
deriving DecidableEq

/-- The result object of the Monster API client: an ordered list of output
URLs under the output key. -/
structure MonsterResult where
  output : List String

/-- The prompt-accumulation loop of generate_scene_image: one line
"name: description" per involved character, in order, each terminated by a
newline.  A Python dict is modelled as an insertion-ordered association
list with unique keys; a missing character raises KeyError naming it. -/
def build_image_prompt_aux (character_descriptions : List (String × String))
    (acc : String) : List String → Except ImgError String
  | [] => Except.ok acc
  | name :: rest =>
    match character_descriptions.lookup name with
    | none => Except.error (ImgError.keyError name)
    | some desc =>
      build_image_prompt_aux character_descriptions
        (acc ++ name ++ ": " ++ desc ++ "\n") rest

/-- The full prompt of generate_scene_image: the character lines followed by
the final "Scene: <description>." line. -/
def build_image_prompt (scene_description : String)
    (character_descriptions : List (String × String))
    (characters_involved : List String) : Except ImgError String :=
  match build_image_prompt_aux character_descriptions "" characters_involved with
  | Except.error e => Except.error e
  | Except.ok cp => Except.ok (cp ++ "Scene: " ++ scene_description ++ ".")

/-- The input_data payload generate_scene_image dispatches to the Monster
client: the assembled prompt together with the fixed negative prompt,
sample count, step count, aspect ratio, guidance scale and seed. -/
def scene_image_request (scene_description : String)
    (character_descriptions : List (String × String))
    (characters_involved : List String)
    (output_dir : String) (scene_name : String) : Except ImgError ImageInput :=
  match build_image_prompt scene_description character_descriptions characters_involved with
  | Except.error e => Except.error e
  | Except.ok full_prompt =>
    Except.ok
      { prompt := full_prompt
        negprompt := "deformed, bad anatomy, disfigured, poorly drawn face"
        samples := 1
        steps := 50
        aspect_ratio := "square"
        guidance_scale := 15 / 2
        seed := 2414 }

/-- GeminiStoryGenerator.generate_scene_image: assemble the prompt, dispatch
to the Monster API collaborator (a function of the model name and the input
payload) with model "txt2img", and return the first output URL; indexing an
empty output list raises IndexError. -/
def generate_scene_image (provider : String → ImageInput → MonsterResult)
    (scene_description : String)
    (character_descriptions : List (String × String))
    (characters_involved : List String)
    (output_dir : String) (scene_name : String) : Except ImgError String :=
  match scene_image_request scene_description character_descriptions
      characters_involved output_dir scene_name with
  | Except.error e => Except.error e
  | Except.ok input_data =>
    match (provider "txt2img" input_data).output with
    | [] => Except.error ImgError.indexError
    | url :: _ => Except.ok url

/-- The first character of the involved list that has no entry in the
description mapping, if any: the one whose lookup raises first. -/
def firstMissing (character_descriptions : List (String × String)) :
    List String → Option String
  | [] => none
  | name :: rest =>
    match character_descriptions.lookup name with
    | none => some name
    | some _ => firstMissing character_descriptions rest

theorem pySplitWsAux_nospace (w : List Char) :
    ∀ (acc rest : List Char), (∀ c ∈ w, isPySpace c = false) →
      pySplitWsAux acc (w ++ rest) = pySplitWsAux (w.reverse ++ acc) rest := by
  induction w with
  | nil => intro acc rest _; rfl
  | cons c w ih =>
    intro acc rest h
    have hc : isPySpace c = false := h c (by simp)
    show pySplitWsAux acc (c :: (w ++ rest)) = _
    rw [pySplitWsAux, hc]
    simp only [Bool.false_eq_true, if_false]
    rw [ih (c :: acc) rest (fun x hx => h x (by simp [hx]))]
    simp [List.append_assoc]

theorem pySplitWsAux_space (acc rest : List Char) (h : acc ≠ []) :
    pySplitWsAux acc (' ' :: rest) = String.mk acc.reverse :: pySplitWsAux [] rest := by
  have hne : acc.isEmpty = false := by
    cases acc with
    | nil => exact absurd rfl h
    | cons a l => rfl
  have hsp : isPySpace ' ' = true := rfl
  rw [pySplitWsAux, hsp]
  simp [hne]

theorem pySplitWs_wordsText (ws : List (List Char))
    (h : ∀ w ∈ ws, w ≠ [] ∧ ∀ c ∈ w, isPySpace c = false) :
    pySplitWs (String.mk (wordsText ws)) = ws.map String.mk := by
  induction ws with
  | nil => rfl
  | cons w ws ih =>
    obtain ⟨hw, hns⟩ := h w (by simp)
    cases ws with
    | nil =>
      show pySplitWsAux [] (wordsText [w]) = [String.mk w]
      have h1 : wordsText [w] = w ++ [] := by simp [wordsText]
      rw [h1, pySplitWsAux_nospace w [] [] hns, List.append_nil]
      have hne : w.reverse.isEmpty = false := by
        cases hr : w.reverse with
        | nil => exact absurd (by simpa using hr) hw
        | cons a l => rfl
      rw [pySplitWsAux, hne]
      simp
    | cons w2 ws2 =>
      show pySplitWsAux [] (wordsText (w :: w2 :: ws2)) = _
      have h1 : wordsText (w :: w2 :: ws2) = w ++ ' ' :: wordsText (w2 :: ws2) := rfl
      rw [h1, pySplitWsAux_nospace w [] _ hns, List.append_nil]
      rw [pySplitWsAux_space _ _ (by simpa using hw), List.reverse_reverse]
      have h2 : pySplitWsAux [] (wordsText (w2 :: ws2)) = (w2 :: ws2).map String.mk :=
        ih (fun x hx => h x (by simp [hx]))
      rw [h2]
      rfl

theorem suffix_mem_charSuffixes : ∀ (l1 l2 : List Char), l2 ∈ charSuffixes (l1 ++ l2) := by
  intro l1
  induction l1 with
  | nil =>
    intro l2
    cases l2 with
    | nil => simp [charSuffixes]
    | cons c r =>
      show _ ∈ (c :: r) :: charSuffixes r
      exact List.mem_cons_self _ _
  | cons c l1 ih =>
    intro l2
    show _ ∈ (c :: (l1 ++ l2)) :: charSuffixes (l1 ++ l2)
    exact List.mem_cons_of_mem _ (ih l2)

theorem pyContains_of_tail (pre : List Char) (pat : String) :
    pyContains pat (String.mk (pre ++ pat.data)) = true := by
  unfold pyContains
  rw [List.any_eq_true]
  refine ⟨pat.data, suffix_mem_charSuffixes pre pat.data, ?_⟩
  rw [List.isPrefixOf_iff_prefix]

theorem wordsText_append_last (ws : List (List Char)) (w : List Char) :
    ∃ pre, wordsText (ws ++ [w]) = pre ++ w := by
  induction ws with
  | nil => exact ⟨[], rfl⟩
  | cons a ws ih =>
    obtain ⟨pre, hp⟩ := ih
    cases ws with
    | nil => exact ⟨a ++ [' '], by simp [wordsText]⟩
    | cons b m =>
      refine ⟨a ++ ' ' :: pre, ?_⟩
      show a ++ ' ' :: wordsText ((b :: m) ++ [w]) = (a ++ ' ' :: pre) ++ w
      rw [hp]
      simp

theorem wordStory_words (n : Nat) :
    pySplitWs (String.mk (wordsText (List.replicate n "w".data ++ ["[Scene".data]))) =
      (List.replicate n "w".data ++ ["[Scene".data]).map String.mk := by
  refine pySplitWs_wordsText _ (fun w hw => ?_)
  rcases List.mem_append.mp hw with h | h
  · rw [List.eq_of_mem_replicate h]
    exact ⟨by decide, by decide⟩
  · rw [List.mem_singleton.mp h]
    exact ⟨by decide, by decide⟩

theorem wordStory_contains (n : Nat) :
    pyContains "[Scene" (String.mk (wordsText (List.replicate n "w".data ++ ["[Scene".data]))) = true := by
  obtain ⟨pre, hp⟩ := wordsText_append_last (List.replicate n "w".data) "[Scene".data
  rw [hp]
  exact pyContains_of_tail pre "[Scene"

set_option maxRecDepth 4000 in
/-- C2: validation passes exactly when the word count is at most 500 and the
text contains the substring "[Scene"; in particular a 500-word text ending in
the marker passes, a 501-word text fails despite its marker, and a text
without a marker fails. -/
theorem C2_validation_boundary :
    (∀ story : String,
      validate_content story = true ↔
        ((pySplitWs story).length ≤ 500 ∧ pyContains "[Scene" story = true)) ∧
    ((pySplitWs fiveHundredWordStory).length = 500 ∧
      validate_content fiveHundredWordStory = true) ∧
    ((pySplitWs fiveHundredOneWordStory).length = 501 ∧
      validate_content fiveHundredOneWordStory = false) ∧
    validate_content "A story with no scene markers at all" = false := by
  have hiff : ∀ story : String,
      validate_content story = true ↔
        ((pySplitWs story).length ≤ 500 ∧ pyContains "[Scene" story = true) := by
    intro story
    unfold validate_content
    by_cases h1 : (pySplitWs story).length > 500
    · rw [if_pos h1]
      constructor
      · intro hv; cases hv
      · rintro ⟨hle, _⟩; omega
    · rw [if_neg h1]
      cases h2 : pyContains "[Scene" story with
      | true =>
        rw [if_neg (by simp [h2])]
        simp only [h2, and_true]
        constructor
        · intro _; omega
        · intro _; trivial
      | false =>
        rw [if_pos (by simp [h2])]
        simp [h2]
  have h500 : (pySplitWs fiveHundredWordStory).length = 500 := by
    rw [fiveHundredWordStory, wordStory_words]
    simp
  have h501 : (pySplitWs fiveHundredOneWordStory).length = 501 := by
    rw [fiveHundredOneWordStory, wordStory_words]
    simp
  refine ⟨hiff, ⟨h500, ?_⟩, ⟨h501, ?_⟩, by decide⟩
  · rw [hiff]
    refine ⟨by omega, ?_⟩
    rw [fiveHundredWordStory]
    exact wordStory_contains 499
  · unfold validate_content
    rw [h501]
    simp

/-- C3: the sample raw text parses to title "T" and the two scenes, each
body being the non-blank lines up to the next marker joined by newline. -/
theorem C3_parser_round_trip :
    parse_story "Title: T\n[Scene 1]\nHello\nworld\n[Scene 2]\nBye" =
      { title := "T"
        scenes := [("[Scene 1]", "Hello\nworld"), ("[Scene 2]", "Bye")]
        full_text := "Title: T\n[Scene 1]\nHello\nworld\n[Scene 2]\nBye" } := by
  decide

/-- C8 counterexample: the code deletes every occurrence of "Title:" from
the first line, so a later occurrence is not preserved: the first line
"Title: A Title: B" yields title "A  B", not "A Title: B". -/
theorem C8_counterexample :
    (parse_story "Title: A Title: B\n[Scene 1]\nx").title = "A  B" ∧
    ("A  B" : String) ≠ "A Title: B" := by
  decide

/-- C8 (amended): the parsed title is the first line with every occurrence
of the substring "Title:" removed and surrounding whitespace trimmed. -/
theorem C8_title_strips_every_occurrence :
    (∀ raw : String,
      (parse_story raw).title =
        pyStrip (pyReplace "Title:" "" ((pySplitNl raw).headD ""))) ∧
    (parse_story "Title: A Title: B\n[Scene 1]\nx").title = "A  B" :=
  ⟨fun _ => rfl, by decide⟩

/-- C9: for characters A and B with their descriptions and scene
description "park", the assembled prompt is exactly
"A: a dog\nB: a cat\nScene: park.", both as assembled and as dispatched. -/
theorem C9_image_prompt_assembly :
    build_image_prompt "park" [("A", "a dog"), ("B", "a cat")] ["A", "B"] =
      Except.ok "A: a dog\nB: a cat\nScene: park." ∧
    Except.map ImageInput.prompt
      (scene_image_request "park" [("A", "a dog"), ("B", "a cat")] ["A", "B"]
        "generated_scene_images" "scene1") =
      Except.ok "A: a dog\nB: a cat\nScene: park." :=
  ⟨rfl, rfl⟩

/-- C10: output_dir and scene_name influence neither the dispatched request
nor the returned result of generate_scene_image; every dispatched request
carries the fixed seed 2414. -/
theorem C10_output_dir_scene_name_no_influence :
    ∀ (provider : String → ImageInput → MonsterResult) (sd : String)
      (cds : List (String × String)) (ci : List String)
      (od1 sn1 od2 sn2 : String),
      scene_image_request sd cds ci od1 sn1 = scene_image_request sd cds ci od2 sn2 ∧
      generate_scene_image provider sd cds ci od1 sn1 =
        generate_scene_image provider sd cds ci od2 sn2 ∧
      Except.map ImageInput.seed (scene_image_request sd cds ci od1 sn1) =
        Except.map (fun _ => 2414) (scene_image_request sd cds ci od1 sn1) := by
  intro provider sd cds ci od1 sn1 od2 sn2
  refine ⟨rfl, rfl, ?_⟩
  unfold scene_image_request
  cases build_image_prompt sd cds ci <;> rfl

theorem generate_storyFrom_exhausted (gen : Nat → GenOutcome) :
    ∀ (r start : Nat), (∀ i, i < r → attemptFails (gen (start + i)) = true) →
      generate_storyFrom gen start r =
        (Except.error "Failed to generate a valid story", r) := by
  intro r
  induction r with
  | zero => intro start _; rfl
  | succ r ih =>
    intro start h
    have h0 := h 0 (by omega)
    rw [Nat.add_zero] at h0
    have hrec : generate_storyFrom gen (start + 1) r =
        (Except.error "Failed to generate a valid story", r) := by
      refine ih (start + 1) (fun i hi => ?_)
      have := h (i + 1) (by omega)
      rwa [show start + (i + 1) = start + 1 + i by omega] at this
    cases hg : gen start with
    | raises => simp [generate_storyFrom, hg, hrec]
    | text s =>
      have hv : validate_content s = false := by simpa [attemptFails, hg] using h0
      simp [generate_storyFrom, hg, hv, hrec]

theorem generate_storyFrom_first_success (gen : Nat → GenOutcome) (s : String) :
    ∀ (k r start : Nat), k < r →
      (∀ i, i < k → attemptFails (gen (start + i)) = true) →
      gen (start + k) = GenOutcome.text s →
      validate_content s = true →
      generate_storyFrom gen start r = (Except.ok (parse_story s), k + 1) := by
  intro k
  induction k with
  | zero =>
    intro r start hr h hk hv
    cases r with
    | zero => omega
    | succ r =>
      rw [Nat.add_zero] at hk
      simp [generate_storyFrom, hk, hv]
  | succ k ih =>
    intro r start hr h hk hv
    cases r with
    | zero => omega
    | succ r =>
      have h0 := h 0 (by omega)
      rw [Nat.add_zero] at h0
      have hrec : generate_storyFrom gen (start + 1) r = (Except.ok (parse_story s), k + 1) := by
        refine ih r (start + 1) (by omega) (fun i hi => ?_) ?_ hv
        · have := h (i + 1) (by omega)
          rwa [show start + (i + 1) = start + 1 + i by omega] at this
        · rwa [show start + (k + 1) = start + 1 + k by omega] at hk
      cases hg : gen start with
      | raises => simp [generate_storyFrom, hg, hrec]
      | text s2 =>
        have hv2 : validate_content s2 = false := by simpa [attemptFails, hg] using h0
        simp [generate_storyFrom, hg, hv2, hrec]

/-- C1: when every one of the first three attempts raises or returns text
failing validation, generate_story makes exactly 3 attempts and signals the
terminal "Failed to generate a valid story" failure. -/
theorem C1_retry_bound_exhaustion (gen : String → Nat → GenOutcome)
    (moral_value : String) (character_names : List String)
    (h : ∀ i, i < 3 →
      attemptFails (gen (create_story_prompt moral_value character_names) i) = true) :
    generate_story gen moral_value character_names =
      (Except.error "Failed to generate a valid story", 3) := by
  unfold generate_story
  have := generate_storyFrom_exhausted
    (gen (create_story_prompt moral_value character_names)) 3 0
    (fun i hi => by simpa using h i hi)
  simpa using this

/-- Witness for C1 at a collaborator that always raises. -/
theorem C1_retry_bound_exhaustion_witness :
    generate_story (fun _ _ => GenOutcome.raises) "kindness" ["Ann"] =
      (Except.error "Failed to generate a valid story", 3) :=
  C1_retry_bound_exhaustion (fun _ _ => GenOutcome.raises) "kindness" ["Ann"]
    (fun _ _ => rfl)

/-- C5: the first attempt whose text passes validation ends the loop: when
the k-th attempt (k < 3) returns validated text and the earlier ones failed,
generate_story returns the parse of that text having made exactly k + 1
attempts, so no later attempt is made. -/
theorem C5_first_validated_wins (gen : String → Nat → GenOutcome)
    (moral_value : String) (character_names : List String) (s : String) (k : Nat)
    (hk3 : k < 3)
    (hfail : ∀ i, i < k →
      attemptFails (gen (create_story_prompt moral_value character_names) i) = true)
    (hsucc : gen (create_story_prompt moral_value character_names) k = GenOutcome.text s)
    (hv : validate_content s = true) :
    generate_story gen moral_value character_names =
      (Except.ok (parse_story s), k + 1) := by
  unfold generate_story
  exact generate_storyFrom_first_success _ s k 3 0 hk3
    (fun i hi => by simpa using hfail i hi) (by simpa using hsucc) hv

/-- Witness for C5: the second attempt succeeds, so exactly 2 attempts are
made and no third occurs. -/
theorem C5_first_validated_wins_witness :
    generate_story
      (fun _ i => if i = 1 then GenOutcome.text "Title: T\n[Scene 1]\nHi"
        else GenOutcome.raises)
      "kindness" ["Ann"] =
      (Except.ok (parse_story "Title: T\n[Scene 1]\nHi"), 2) :=
  C5_first_validated_wins _ "kindness" ["Ann"] "Title: T\n[Scene 1]\nHi" 1
    (by omega)
    (fun i hi => by
      have hi0 : i = 0 := by omega
      subst hi0
      rfl)
    rfl
    (by decide)

theorem build_image_prompt_aux_missing (cds : List (String × String)) (c : String) :
    ∀ (ci : List String) (acc : String), firstMissing cds ci = some c →
      build_image_prompt_aux cds acc ci = Except.error (ImgError.keyError c) := by
  intro ci
  induction ci with
  | nil => intro acc h; cases h
  | cons name rest ih =>
    intro acc h
    cases hl : cds.lookup name with
    | none =>
      simp only [firstMissing, hl, Option.some.injEq] at h
      subst h
      simp [build_image_prompt_aux, hl]
    | some d =>
      simp only [firstMissing, hl] at h
      simp only [build_image_prompt_aux, hl]
      exact ih _ h

/-- C7 counterexample: a missing description yields the raw dict-lookup
failure KeyError, which is not the checked MissingCharacterDescription
error the claim names. -/
theorem C7_counterexample :
    generate_scene_image (fun _ _ => { output := ["http://example.com/img.png"] })
      "park" [("A", "a dog")] ["A", "B"] "generated_scene_images" "scene1" =
      Except.error (ImgError.keyError "B") ∧
    ImgError.keyError "B" ≠ ImgError.missingCharacterDescription "B" :=
  ⟨rfl, by decide⟩

/-- C7 (amended): when some involved character has no description entry,
generate_scene_image fails with the raw dictionary-lookup error KeyError
naming the first such character (not with MissingCharacterDescription). -/
theorem C7_missing_description_is_keyError
    (provider : String → ImageInput → MonsterResult) (scene_description : String)
    (character_descriptions : List (String × String))
    (characters_involved : List String)
    (output_dir scene_name : String) (c : String)
    (h : firstMissing character_descriptions characters_involved = some c) :
    generate_scene_image provider scene_description character_descriptions
      characters_involved output_dir scene_name =
      Except.error (ImgError.keyError c) := by
  unfold generate_scene_image scene_image_request build_image_prompt
  rw [build_image_prompt_aux_missing character_descriptions c characters_involved "" h]

/-- Witness for C7 at a single involved character with no descriptions. -/
theorem C7_missing_description_is_keyError_witness :
    generate_scene_image (fun _ _ => { output := ["http://example.com/img.png"] })
      "park" [] ["B"] "generated_scene_images" "scene1" =
      Except.error (ImgError.keyError "B") :=
  C7_missing_description_is_keyError _ "park" [] ["B"]
    "generated_scene_images" "scene1" "B" rfl

theorem dictInsert_ne_nil (k v : String) (d : List (String × String)) :
    dictInsert k v d ≠ [] := by
  unfold dictInsert
  split_ifs with h
  · intro hc
    rcases d with _ | ⟨p, d⟩
    · simp at h
    · simp at hc
  · simp

theorem mem_keys_dictInsert (x k v : String) (d : List (String × String))
    (h : x ∈ (dictInsert k v d).map Prod.fst) :
    x = k ∨ x ∈ d.map Prod.fst := by
  unfold dictInsert at h
  split_ifs at h with hany
  · rw [List.map_map, List.mem_map] at h
    obtain ⟨q, hq, hx⟩ := h
    by_cases hqk : q.1 = k
    · left
      simpa [Function.comp, hqk] using hx.symm
    · right
      simp only [Function.comp, if_neg hqk] at hx
      exact List.mem_map.mpr ⟨q, hq, hx⟩
  · rw [List.map_append, List.mem_append] at h
    rcases h with h | h
    · right; exact h
    · left; simpa using h

theorem flushScene_some (sc : List (String × String)) (k : String) (ct : List String) :
    flushScene { scenes := sc, currentScene := some k, currentText := ct } =
      dictInsert k (pyStrip (pyJoin "\n" ct)) sc := rfl

theorem flushScene_none (sc : List (String × String)) (ct : List String) :
    flushScene { scenes := sc, currentScene := none, currentText := ct } = sc := rfl

theorem finalizeScenes_some (sc : List (String × String)) (k : String) (ct : List String) :
    finalizeScenes { scenes := sc, currentScene := some k, currentText := ct } =
      if ct ≠ [] then dictInsert k (pyStrip (pyJoin "\n" ct)) sc else sc := rfl

theorem finalizeScenes_none (sc : List (String × String)) (ct : List String) :
    finalizeScenes { scenes := sc, currentScene := none, currentText := ct } = sc := rfl

theorem mem_keys_flushScene (x : String) (st : ParseState)
    (h : x ∈ (flushScene st).map Prod.fst) :
    st.currentScene = some x ∨ x ∈ st.scenes.map Prod.fst := by
  obtain ⟨sc, cs, ct⟩ := st
  cases cs with
  | none =>
    rw [flushScene_none] at h
    right; exact h
  | some k =>
    rw [flushScene_some] at h
    rcases mem_keys_dictInsert x k _ _ h with h1 | h1
    · left; rw [h1]
    · right; exact h1

theorem processLine_marker (st : ParseState) (line : String)
    (h : isSceneMarker line = true) :
    processLine st line =
      { scenes := flushScene st
        currentScene := some (pyStrip line)
        currentText := [] } := by
  unfold processLine
  rw [if_pos h]

theorem isSceneMarker_of_blank (line : String) (h : pyStrip line = "") :
    isSceneMarker line = false := by
  unfold isSceneMarker pyStartsWith
  rw [h]
  rfl

theorem processLine_blank (st : ParseState) (line : String) (h : pyStrip line = "") :
    processLine st line = st := by
  unfold processLine
  simp [isSceneMarker_of_blank line h, h]

theorem foldl_processLine_blank (post : List String) :
    ∀ st : ParseState, (∀ l ∈ post, pyStrip l = "") →
      post.foldl processLine st = st := by
  induction post with
  | nil => intro st _; rfl
  | cons l post ih =>
    intro st h
    rw [List.foldl_cons, processLine_blank st l (h l (by simp))]
    exact ih st (fun x hx => h x (by simp [hx]))

theorem flushScene_ne_nil (st : ParseState) (h : st.scenes ≠ []) : flushScene st ≠ [] := by
  obtain ⟨sc, cs, ct⟩ := st
  cases cs with
  | none => rw [flushScene_none]; exact h
  | some k => rw [flushScene_some]; exact dictInsert_ne_nil k _ _

theorem processLine_scenes_ne_nil (st : ParseState) (line : String)
    (h : st.scenes ≠ []) : (processLine st line).scenes ≠ [] := by
  unfold processLine
  split_ifs with h1 h2
  · exact flushScene_ne_nil st h
  · exact h
  · exact h

theorem foldl_scenes_ne_nil (lines : List String) :
    ∀ st : ParseState, st.scenes ≠ [] → (lines.foldl processLine st).scenes ≠ [] := by
  induction lines with
  | nil => intro st h; exact h
  | cons l lines ih => intro st h; exact ih _ (processLine_scenes_ne_nil st l h)

theorem finalizeScenes_ne_nil (st : ParseState) (h : st.scenes ≠ []) :
    finalizeScenes st ≠ [] := by
  obtain ⟨sc, cs, ct⟩ := st
  cases cs with
  | none => rw [finalizeScenes_none]; exact h
  | some k =>
    rw [finalizeScenes_some]
    split_ifs with h1
    · exact dictInsert_ne_nil k _ _
    · exact h

theorem finalize_foldl_ne_nil_of_open (lines : List String) :
    ∀ (st : ParseState) (k : String), st.currentScene = some k →
      (st.currentText ≠ [] ∨ ∃ l ∈ lines, pyStrip l ≠ "") →
      finalizeScenes (lines.foldl processLine st) ≠ [] := by
  induction lines with
  | nil =>
    intro st k hk hd
    rcases hd with hd | ⟨l, hl, _⟩
    · rw [List.foldl_nil]
      obtain ⟨sc, cs, ct⟩ := st
      simp only at hk hd
      subst hk
      rw [finalizeScenes_some, if_pos hd]
      exact dictInsert_ne_nil k _ _
    · cases hl
  | cons l lines ih =>
    intro st k hk hd
    rw [List.foldl_cons]
    by_cases hm : isSceneMarker l = true
    · rw [processLine_marker st l hm]
      apply finalizeScenes_ne_nil
      apply foldl_scenes_ne_nil
      show flushScene st ≠ []
      obtain ⟨sc, cs, ct⟩ := st
      simp only at hk
      subst hk
      rw [flushScene_some]
      exact dictInsert_ne_nil k _ _
    · by_cases hb : pyStrip l = ""
      · rw [processLine_blank st l hb]
        refine ih st k hk ?_
        rcases hd with hd | ⟨x, hx, hxs⟩
        · exact Or.inl hd
        · right
          rcases List.mem_cons.mp hx with rfl | hx2
          · exact absurd hb hxs
          · exact ⟨x, hx2, hxs⟩
      · have hps : processLine st l = { st with currentText := st.currentText ++ [l] } := by
          unfold processLine
          rw [if_neg hm, if_pos ⟨hb, by rw [hk]; rfl⟩]
        rw [hps]
        exact ih _ k (by simp [hk]) (Or.inl (by simp))

theorem parseScenes_ne_nil_of_marker_then_content (pre : List String) :
    ∀ (st : ParseState) (m : String) (rest : List String),
      isSceneMarker m = true → (∃ nb ∈ rest, pyStrip nb ≠ "") →
      finalizeScenes ((pre ++ m :: rest).foldl processLine st) ≠ [] := by
  induction pre with
  | nil =>
    intro st m rest hm hex
    obtain ⟨nb, hnb, hnbs⟩ := hex
    rw [List.nil_append, List.foldl_cons, processLine_marker st m hm]
    exact finalize_foldl_ne_nil_of_open rest _ (pyStrip m) rfl (Or.inr ⟨nb, hnb, hnbs⟩)
  | cons p pre ih =>
    intro st m rest hm hex
    rw [List.cons_append, List.foldl_cons]
    exact ih _ m rest hm hex

/-- C6 counterexample: the raw text "[Scene" passes validation (1 word and
the marker substring present) yet parses to an empty scenes mapping: its
only line is the title line, so the scene loop sees no lines at all. -/
theorem C6_counterexample :
    validate_content "[Scene" = true ∧ (parse_story "[Scene").scenes = [] := by
  decide

/-- C6 (amended): when the raw text passes validation and, among the lines
after the first, some scene-marker line is followed by a later non-blank
line, the parsed scenes mapping is non-empty. -/
theorem C6_scenes_nonempty (raw : String) (pre : List String) (m : String)
    (rest : List String) (nb : String)
    (hval : validate_content raw = true)
    (hsplit : (pySplitNl raw).tail = pre ++ m :: rest)
    (hm : isSceneMarker m = true)
    (hnb : nb ∈ rest) (hnbs : pyStrip nb ≠ "") :
    (parse_story raw).scenes ≠ [] := by
  show parseScenes (pySplitNl raw).tail ≠ []
  rw [hsplit]
  exact parseScenes_ne_nil_of_marker_then_content pre _ m rest hm ⟨nb, hnb, hnbs⟩

/-- Witness for C6 on a validated text with one marker and one body line. -/
theorem C6_scenes_nonempty_witness :
    (parse_story "Title: T\n[Scene 1]\nBody").scenes ≠ [] :=
  C6_scenes_nonempty "Title: T\n[Scene 1]\nBody" [] "[Scene 1]" ["Body"] "Body"
    (by decide) (by decide) (by decide) (by decide) (by decide)

theorem foldl_keys_avoid (pre : List String) :
    ∀ (st : ParseState) (t : String),
      (∀ l ∈ pre, isSceneMarker l = true → pyStrip l ≠ t) →
      t ∉ st.scenes.map Prod.fst →
      st.currentScene ≠ some t →
      t ∉ (pre.foldl processLine st).scenes.map Prod.fst ∧
        (pre.foldl processLine st).currentScene ≠ some t := by
  induction pre with
  | nil => intro st t _ h1 h2; exact ⟨h1, h2⟩
  | cons l pre ih =>
    intro st t hpre h1 h2
    rw [List.foldl_cons]
    by_cases hm : isSceneMarker l = true
    · rw [processLine_marker st l hm]
      refine ih _ t (fun x hx hxm => hpre x (by simp [hx]) hxm) ?_ ?_
      · intro hmem
        rcases mem_keys_flushScene t st hmem with hc | hc
        · exact h2 hc
        · exact h1 hc
      · intro hc
        simp only [Option.some.injEq] at hc
        exact hpre l (by simp) hm hc
    · have hsame : (processLine st l).scenes = st.scenes ∧
          (processLine st l).currentScene = st.currentScene := by
        unfold processLine
        rw [if_neg hm]
        split_ifs with h3
        · exact ⟨rfl, rfl⟩
        · exact ⟨rfl, rfl⟩
      refine ih _ t (fun x hx hxm => hpre x (by simp [hx]) hxm) ?_ ?_
      · rw [hsame.1]; exact h1
      · rw [hsame.2]; exact h2

/-- C4 counterexample: the text ends immediately after the marker line
"[Scene 1]" with no following body line, yet that trimmed marker IS a key of
the result, because an identical marker line occurred earlier with a body. -/
theorem C4_counterexample :
    (pySplitNl "Title: T\n[Scene 1]\nbody\n[Scene 1]").tail =
      ["[Scene 1]", "body", "[Scene 1]"] ∧
    isSceneMarker "[Scene 1]" = true ∧
    pyStrip "[Scene 1]" ∈
      (parse_story "Title: T\n[Scene 1]\nbody\n[Scene 1]").scenes.map Prod.fst := by
  decide

/-- C4 (amended): when the raw text ends immediately after a scene-marker
line, all following lines being blank, and no earlier line after the first
is a marker with the same trimmed text, the trimmed trailing marker is not a
key of the parsed scenes mapping. -/
theorem C4_trailing_marker_not_recorded (raw : String) (pre : List String)
    (m : String) (post : List String)
    (hsplit : (pySplitNl raw).tail = pre ++ m :: post)
    (hm : isSceneMarker m = true)
    (hpost : ∀ l ∈ post, pyStrip l = "")
    (hdup : ∀ l ∈ pre, isSceneMarker l = true → pyStrip l ≠ pyStrip m) :
    pyStrip m ∉ (parse_story raw).scenes.map Prod.fst := by
  show pyStrip m ∉ (parseScenes (pySplitNl raw).tail).map Prod.fst
  rw [hsplit]
  unfold parseScenes
  rw [List.foldl_append, List.foldl_cons]
  obtain ⟨hkeys, hcur⟩ := foldl_keys_avoid pre
    { scenes := [], currentScene := none, currentText := [] } (pyStrip m)
    hdup (by simp) (by simp)
  rw [processLine_marker _ m hm, foldl_processLine_blank post _ hpost]
  rw [finalizeScenes_some]
  rw [if_neg (by simp)]
  intro hmem
  rcases mem_keys_flushScene _ _ hmem with hc | hc
  · exact hcur hc
  · exact hkeys hc

/-- Witness for C4 on a text whose final line is a fresh trailing marker. -/
theorem C4_trailing_marker_not_recorded_witness :
    pyStrip "[Scene 2]" ∉
      (parse_story "Title: T\n[Scene 1]\nbody\n[Scene 2]").scenes.map Prod.fst :=
  C4_trailing_marker_not_recorded "Title: T\n[Scene 1]\nbody\n[Scene 2]"
    ["[Scene 1]", "body"] "[Scene 2]" []
    (by decide) (by decide) (fun l hl => absurd hl (List.not_mem_nil l))
    (by decide)

end StoryGen
